import Mathlib

/-! Shallow embedding of the `Jusmbell/week-6` repository (files `apputil.py` and
`genius_api.py`): a small Genius-API client.  Python dictionaries parsed from
JSON are modelled by the `Json` type; Python dictionary/list operations used by
the source are modelled with their exception behaviour made explicit in an
`Except Err` result.  Network activity is modelled by a `Transport` parameter
(a deterministic function from requests to responses); every library function
is interpreted in the monad `M`, which threads the transport, an error, and a
log of the HTTP requests the function issued.
-/

/-- JSON values as produced by `response.json()` in Python.  `null` also
models Python's `None`. -/
inductive Json where
  | null : Json
  | bool : Bool → Json
  | num : Int → Json
  | str : String → Json
  | arr : List Json → Json
  | obj : List (String × Json) → Json
deriving Repr

/-- Python errors and transport faults that the modelled code can raise. -/
inductive Err where
  | httpError : Nat → Err
  | connectionError : Err
  | timeoutError : Err
  | jsonDecodeError : Err
  | keyError : String → Err
  | indexError : Err
  | typeError : Err
  | attributeError : Err
  | valueError : String → Err
deriving Repr, DecidableEq

/-- Python truthiness (`if not hits:` etc.) restricted to JSON values. -/
def pyTruthy : Json → Bool
  | .null => false
  | .bool b => b
  | .num n => n != 0
  | .str s => s != ""
  | .arr xs => !xs.isEmpty
  | .obj fs => !fs.isEmpty

/-- Python `d.get(k, default)` on a parsed-JSON value: returns the default when
the key is absent, raises `AttributeError` when the receiver is not a dict. -/
def pyDictGet : Json → String → Json → Except Err Json
  | .obj fs, k, d => .ok ((fs.lookup k).getD d)
  | _, _, _ => .error .attributeError

/-- Python `d[k]` subscripting with a string key: `KeyError` when the key is
absent from a dict, `TypeError` on any non-dict receiver. -/
def pySubscript : Json → String → Except Err Json
  | .obj fs, k =>
    match fs.lookup k with
    | some v => .ok v
    | none => .error (.keyError k)
  | _, _ => .error .typeError

/-- Python `xs[0]`: first element of a list (or character of a string);
`IndexError` when empty, `KeyError` on a string-keyed dict, `TypeError`
otherwise. -/
def pyIndex0 : Json → Except Err Json
  | .arr [] => .error .indexError
  | .arr (x :: _) => .ok x
  | .str s => if s = "" then .error .indexError else .ok (.str (String.singleton (s.get 0)))
  | .obj _ => .error (.keyError "0")
  | _ => .error .typeError

/-- Python iteration (`for hit in json_data`): lists yield elements, dicts
yield their keys, strings yield one-character strings; other values raise
`TypeError`. -/
def pyIter : Json → Except Err (List Json)
  | .arr xs => .ok xs
  | .obj fs => .ok (fs.map (fun kv => .str kv.1))
  | .str s => .ok (s.toList.map (fun c => .str (String.singleton c)))
  | _ => .error .typeError

/-- Python `repr` of a scalar JSON value; nested composites are abbreviated
(no code path of the repository depends on the rendering of a composite
value interpolated into a URL). -/
def pyReprAtom : Json → String
  | .null => "None"
  | .bool true => "True"
  | .bool false => "False"
  | .num n => toString n
  | .str s => "\x27" ++ s ++ "\x27"
  | .arr _ => "[...]"
  | .obj _ => "\x7b...\x7d"

/-- Python `str(v)` as used by f-string interpolation (`f"/artists/{artist_id}"`).
Scalars render exactly as in Python; elements of composites via `pyReprAtom`. -/
def pyStr : Json → String
  | .null => "None"
  | .bool true => "True"
  | .bool false => "False"
  | .num n => toString n
  | .str s => s
  | .arr xs => "[" ++ String.intercalate ", " (xs.map pyReprAtom) ++ "]"
  | .obj fs =>
    "\x7b" ++ String.intercalate ", " (fs.map (fun kv => "\x27" ++ kv.1 ++ "\x27: " ++ pyReprAtom kv.2)) ++ "\x7d"

/-- Python `s.startswith(p)`, computed structurally over the character
lists so that concrete URL construction evaluates by reduction. -/
def pyStartswith (s p : String) : Bool := p.data.isPrefixOf s.data

/-- One HTTP GET request as handed to the `requests` library: the URL, the
separately-passed query parameters, the `timeout=` argument when given, and
the session headers. -/
structure Request where
  url : String
  params : List (String × String)
  timeout : Option Nat
  headers : List (String × String)
deriving Repr, DecidableEq

/-- Network-level outcomes of `requests.get`. -/
inductive NetErr where
  | connectionError : NetErr
  | timeoutExpired : NetErr
deriving Repr, DecidableEq

/-- An HTTP response: status code and parsed JSON body (`none` when the body
is not valid JSON, so `resp.json()` raises). -/
structure HttpResponse where
  status : Nat
  body : Option Json

/-- A transport fixture: a deterministic map from requests to network
outcomes.  Same transport and same request always give the same response. -/
def Transport : Type := Request → Except NetErr HttpResponse

/-- The effect monad of the embedding: given a transport, produce either an
error (a raised Python exception) or a value, together with the list of HTTP
requests issued, in order. -/
def M (α : Type) : Type := Transport → Except Err α × List Request

/-- Run an `M` computation on a transport. -/
def M.run {α : Type} (x : M α) (t : Transport) : Except Err α × List Request := x t

def M.pure {α : Type} (a : α) : M α := fun _ => (.ok a, [])

def M.bind {α β : Type} (x : M α) (f : α → M β) : M β := fun t =>
  match x t with
  | (.error e, l) => (.error e, l)
  | (.ok a, l) => ((f a t).1, l ++ (f a t).2)

instance : Monad M where
  pure := M.pure
  bind := M.bind

/-- Lift a pure Python computation (no network) into `M`. -/
def liftE {α : Type} (r : Except Err α) : M α := fun _ => (r, [])

theorem M.run_bind {α β : Type} (x : M α) (f : α → M β) (t : Transport) :
    M.run (x >>= f) t =
      match M.run x t with
      | (.error e, l) => (.error e, l)
      | (.ok a, l) => ((M.run (f a) t).1, l ++ (M.run (f a) t).2) := rfl

theorem M.run_pure {α : Type} (a : α) (t : Transport) :
    M.run (Pure.pure a) t = (.ok a, []) := rfl

theorem M.run_liftE {α : Type} (r : Except Err α) (t : Transport) :
    M.run (liftE r) t = (r, []) := rfl

/-- `pandas.DataFrame` as the repository uses it: an ordered column list and
the underlying records (each a key/value list).  A missing cell reads as
null/NaN via lookup. -/
structure DataFrame where
  columns : List String
  records : List (List (String × Json))
deriving Repr

/-- Insert a column name if not already present (pandas keeps first-appearance
order of keys). -/
def insertCol (cols : List String) (k : String) : List String :=
  if k ∈ cols then cols else cols ++ [k]

/-- Accumulate the columns contributed by one record. -/
def recordCols (cols : List String) (rec : List (String × Json)) : List String :=
  rec.foldl (fun acc kv => insertCol acc kv.1) cols

/-- `pd.DataFrame(records)` on a list of dicts: columns in order of first
appearance across the records; `pd.DataFrame([])` is a frame with no rows and
no columns. -/
def DataFrame.fromRecords (recs : List (List (String × Json))) : DataFrame :=
  { columns := recs.foldl recordCols [], records := recs }

namespace Apputil

/-- `STATIC_TOKEN` constant of `apputil.py` (hard-coded fallback token). -/
def STATIC_TOKEN : String := "iLgX5KDPdNtFbilnP8qVKY_d7CcESB-6p-aL9a8c0JkM3MNDtW5GnkZY54a8GHp-"

/-- The `Genius` client after construction: the fields `__init__` stores on
`self` (the session is represented by its header list). -/
structure Genius where
  access_token : String
  base_url : String
  sessionHeaders : List (String × String)
deriving Repr, DecidableEq

/-- Python `x or y` on optional strings (`None` and `""` are falsy). -/
def strOr (a b : Option String) : Option String :=
  match a with
  | none => b
  | some s => if s = "" then b else some s

/-- Python `s.rstrip("/")`. -/
def rstripSlashes (s : String) : String :=
  ⟨(s.data.reverse.dropWhile (fun c => c = '/')).reverse⟩

/-- `Genius.__init__`: token resolution order is explicit argument, then the
`ACCESS_TOKEN` environment variable (passed here as the `envAccessToken`
parameter), then `STATIC_TOKEN`; raises `ValueError` only when the resolved
token is falsy.  Stores the normalised base URL and the session's
`Authorization` header.  No network request is involved (the result is a
plain value, not an `M` computation). -/
def Genius.init (access_token : Option String) (envAccessToken : Option String)
    (base_url : String := "https://api.genius.com") : Except Err Genius :=
  match strOr (strOr access_token envAccessToken) (some STATIC_TOKEN) with
  | none => .error (.valueError "No access token. Set ACCESS_TOKEN env var or put it in STATIC_TOKEN.")
  | some tok =>
    if tok = "" then
      .error (.valueError "No access token. Set ACCESS_TOKEN env var or put it in STATIC_TOKEN.")
    else
      .ok { access_token := tok
            base_url := rstripSlashes base_url
            sessionHeaders := [("Authorization", "Bearer " ++ tok)] }

/-- The request `Genius._get` hands to `self._session.get`: absolute URLs are
used as-is, otherwise the path is appended to the base URL; query parameters
are passed separately; `timeout=10`; the session headers apply. -/
def mkGetRequest (c : Genius) (path : String) (params : List (String × String)) : Request :=
  { url := if pyStartswith path "http" then path else c.base_url ++ path
    params := params
    timeout := some 10
    headers := c.sessionHeaders }

/-- `Genius._get`: perform the GET, `raise_for_status` (an `HTTPError` for any
4xx/5xx status), then parse the body as JSON. -/
def _get (c : Genius) (path : String) (params : List (String × String)) : M Json :=
  fun t =>
    let req := mkGetRequest c path params
    match t req with
    | .error .connectionError => (.error .connectionError, [req])
    | .error .timeoutExpired => (.error .timeoutError, [req])
    | .ok resp =>
      if 400 ≤ resp.status ∧ resp.status < 600 then
        (.error (.httpError resp.status), [req])
      else
        match resp.body with
        | some j => (.ok j, [req])
        | none => (.error .jsonDecodeError, [req])

/-- `Genius._search`: GET `/search` with `q` and `per_page`, then
`data.get("response", {}).get("hits", [])`. -/
def _search (c : Genius) (search_term : String) (per_page : Int := 1) : M Json := do
  let data ← _get c "/search" [("q", search_term), ("per_page", toString per_page)]
  let resp ← liftE (pyDictGet data "response" (.obj []))
  liftE (pyDictGet resp "hits" (.arr []))

/-- Lines 87–88 of `apputil.py`:
`hits[0].get("result", {}).get("primary_artist", {}).get("id")`. -/
def primaryArtistId (hits : Json) : Except Err Json := do
  let h0 ← pyIndex0 hits
  let res ← pyDictGet h0 "result" (.obj [])
  let primary ← pyDictGet res "primary_artist" (.obj [])
  pyDictGet primary "id" .null

/-- `Genius.get_artist`: search (per_page=1); `{}` when there are no hits or
the primary-artist id is `None`; otherwise GET `/artists/<id>` and return
`response.artist` (defaulting to `{}` at each `.get`). -/
def get_artist (c : Genius) (search_term : String) : M Json := do
  let hits ← _search c search_term 1
  if pyTruthy hits then do
    let artist_id ← liftE (primaryArtistId hits)
    match artist_id with
    | .null => Pure.pure (.obj [])
    | _ => do
      let artist_json ← _get c ("/artists/" ++ pyStr artist_id) []
      let resp ← liftE (pyDictGet artist_json "response" (.obj []))
      liftE (pyDictGet resp "artist" (.obj []))
  else
    Pure.pure (.obj [])

/-- The row dict appended by `Genius.get_artists` for one term, given the
value `get_artist` returned. -/
def artistRow (term : String) (artist : Json) : Except Err (List (String × Json)) := do
  let name ← pyDictGet artist "name" .null
  let id ← pyDictGet artist "id" .null
  let followers ← pyDictGet artist "followers_count" .null
  .ok [("search_term", .str term), ("artist_name", name),
       ("artist_id", id), ("followers_count", followers)]

/-- One iteration of the loop body of `Genius.get_artists`. -/
def rowFor (c : Genius) (term : String) : M (List (String × Json)) := do
  let artist ← get_artist c term
  liftE (artistRow term artist)

/-- The accumulation loop of `Genius.get_artists`. -/
def getArtistsRows (c : Genius) : List String → M (List (List (String × Json)))
  | [] => Pure.pure []
  | term :: rest => do
    let row ← rowFor c term
    let rows ← getArtistsRows c rest
    Pure.pure (row :: rows)

/-- `Genius.get_artists`: run `get_artist` for each term, build the row dicts
in input order, and tabulate with `pd.DataFrame(rows)`. -/
def get_artists (c : Genius) (search_terms : List String) : M DataFrame := do
  let rows ← getArtistsRows c search_terms
  Pure.pure (DataFrame.fromRecords rows)

end Apputil

namespace GeniusApi

/-- `ACCESS_TOKEN` constant of `genius_api.py` (hard-coded token interpolated
into every search URL). -/
def ACCESS_TOKEN : String := "iLgX5KDPdNtFbilnP8qVKY_d7CcESB-6p-aL9a8c0JkM3MNDtW5GnkZY54a8GHp-"

/-- The request the `genius` function hands to `requests.get`: the whole query
string is built by hand inside the URL, no separate params, no `timeout=`
argument, no session headers. -/
def geniusRequest (search_term : String) (per_page : Int) : Request :=
  { url := "http://api.genius.com/search?q=" ++ search_term ++ "&" ++
           "access_token=" ++ ACCESS_TOKEN ++ "&per_page=" ++ toString per_page
    params := []
    timeout := none
    headers := [] }

/-- `genius(search_term, per_page)`: GET the hand-built search URL, parse the
body as JSON with no status check, and return `json_data['response']['hits']`
(subscripting, so a missing key raises `KeyError`). -/
def genius (search_term : String) (per_page : Int := 15) : M Json :=
  fun t =>
    let req := geniusRequest search_term per_page
    match t req with
    | .error .connectionError => (.error .connectionError, [req])
    | .error .timeoutExpired => (.error .timeoutError, [req])
    | .ok resp =>
      match resp.body with
      | none => (.error .jsonDecodeError, [req])
      | some j => ((pySubscript j "response").bind (fun r => pySubscript r "hits"), [req])

/-- The list comprehension `[hit['result'] for hit in json_data]`: evaluated
left to right, the first failing subscript raises. -/
def resultsOfHits : List Json → Except Err (List Json)
  | [] => .ok []
  | h :: hs => do
    let r ← pySubscript h "result"
    let rs ← resultsOfHits hs
    .ok (r :: rs)

/-- `pd.DataFrame(xs)` on a list of parsed-JSON values: dict elements become
records; a non-dict element becomes a single cell in the positional column
`"0"` (pandas' integer column label 0, rendered as a string here). -/
def pdDataFrameOfList (xs : List Json) : DataFrame :=
  DataFrame.fromRecords (xs.map (fun x =>
    match x with
    | .obj fs => fs
    | v => [("0", v)]))

/-- `df[k]` column selection: `KeyError` when `k` is not a column, otherwise
the column's cells in row order (missing cells read as NaN/null). -/
def DataFrame.col (df : DataFrame) (k : String) : Except Err (List Json) :=
  if k ∈ df.columns then
    .ok (df.records.map (fun r => (r.lookup k).getD .null))
  else
    .error (.keyError k)

/-- `series.apply(pd.Series)`: expand each cell into a row (dict cells give
their keys as columns; a scalar cell gives the positional column `"0"`). -/
def applySeries (cells : List Json) : DataFrame :=
  DataFrame.fromRecords (cells.map (fun x =>
    match x with
    | .obj fs => fs
    | v => [("0", v)]))

/-- `df.rename(columns={c: p + c ...})` with a uniform prefix. -/
def prependToColumns (p : String) (df : DataFrame) : DataFrame :=
  { columns := df.columns.map (fun c => p ++ c)
    records := df.records.map (fun r => r.map (fun kv => (p ++ kv.1, kv.2))) }

/-- `pd.concat((a, b), axis=1)` for frames over the same row index. -/
def concatCols (a b : DataFrame) : DataFrame :=
  { columns := a.columns ++ b.columns
    records := List.zipWith (fun x y => x ++ y) a.records b.records }

/-- `pd.concat(dfs)` (axis=0): raises `ValueError` on an empty list, otherwise
stacks the rows and unions the columns in order of appearance. -/
def pdConcatRows (dfs : List DataFrame) : Except Err DataFrame :=
  match dfs with
  | [] => .error (.valueError "No objects to concatenate")
  | _ =>
    .ok { columns := dfs.foldl (fun acc d => d.columns.foldl insertCol acc) []
          records := (dfs.map (fun d => d.records)).flatten }

/-- `genius_to_df(search_term, n_results_per_term)`: search, pull each hit's
`result`, tabulate, then expand the `stats` and `primary_artist` columns and
concatenate them onto the frame.  The `verbose` printing and the optional
CSV write are I/O side effects outside the data path and are not modelled. -/
def genius_to_df (search_term : String) (n_results_per_term : Int := 10) : M DataFrame := do
  let json_data ← genius search_term n_results_per_term
  let hitList ← liftE (pyIter json_data)
  let hits ← liftE (resultsOfHits hitList)
  let df := pdDataFrameOfList hits
  let statsCells ← liftE (DataFrame.col df "stats")
  let df_stats := prependToColumns "stat_" (applySeries statsCells)
  let primaryCells ← liftE (DataFrame.col df "primary_artist")
  let df_primary := prependToColumns "primary_artist_" (applySeries primaryCells)
  Pure.pure (concatCols (concatCols df df_stats) df_primary)

/-- The accumulation loop of `genius_to_dfs` (tqdm is a transparent wrapper). -/
def geniusToDfList (n_results_per_term : Int) : List String → M (List DataFrame)
  | [] => Pure.pure []
  | term :: rest => do
    let df ← genius_to_df term n_results_per_term
    let dfs ← geniusToDfList n_results_per_term rest
    Pure.pure (df :: dfs)

/-- `genius_to_dfs(search_terms, n_results_per_term=...)`: one frame per term
(keyword arguments forwarded to `genius_to_df`), then `pd.concat(dfs)`. -/
def genius_to_dfs (search_terms : List String) (n_results_per_term : Int := 10) : M DataFrame := do
  let dfs ← geniusToDfList n_results_per_term search_terms
  liftE (pdConcatRows dfs)

end GeniusApi

/-! Concrete fixtures used by witnesses and counterexamples. -/

/-- The client `Genius()` constructs when neither an explicit token nor the
environment variable is available (it falls back to `STATIC_TOKEN`). -/
def testClient : Apputil.Genius :=
  { access_token := Apputil.STATIC_TOKEN
    base_url := "https://api.genius.com"
    sessionHeaders := [("Authorization", "Bearer " ++ Apputil.STATIC_TOKEN)] }

/-- A transport that answers every request with HTTP 500 and an empty JSON
object body. -/
def t500 : Transport := fun _ => .ok { status := 500, body := some (.obj []) }

/-- A transport that answers every request with HTTP 200 and an empty JSON
object body (so a search yields the fallback empty hits list). -/
def tEmptySearch : Transport := fun _ => .ok { status := 200, body := some (.obj []) }

/-- A transport that answers every request with HTTP 200 and a body holding
an explicitly empty `response.hits` list. -/
def tEmptyHits : Transport := fun _ =>
  .ok { status := 200, body := some (.obj [("response", .obj [("hits", .arr [])])]) }

/-- A fixed fixture transport: searching for `Radiohead` yields one hit whose
primary artist has id 604, and the artist-604 detail endpoint yields the full
artist record.  Everything else gets an empty 200. -/
def tFix : Transport := fun req =>
  if req.params.lookup "q" = some "Radiohead" then
    .ok { status := 200
          body := some (.obj [("response", .obj [("hits", .arr
            [.obj [("result", .obj [("primary_artist", .obj
              [("id", .num 604), ("name", .str "Radiohead")])])]])])]) }
  else if req.url = "https://api.genius.com/artists/604" then
    .ok { status := 200
          body := some (.obj [("response", .obj [("artist", .obj
            [("name", .str "Radiohead"), ("id", .num 604),
             ("followers_count", .num 12345)])])]) }
  else
    .ok { status := 200, body := some (.obj []) }

/-- A transport on which the term `"a"` searches cleanly to zero hits, the
term `"b"` searches to a hit with primary-artist id 7, and the detail call
for artist 7 fails with HTTP 503: a transport fault confined to one term's
detail step. -/
def tDetailFault : Transport := fun req =>
  if req.params.lookup "q" = some "a" then
    .ok { status := 200, body := some (.obj [("response", .obj [("hits", .arr [])])]) }
  else if req.params.lookup "q" = some "b" then
    .ok { status := 200
          body := some (.obj [("response", .obj [("hits", .arr
            [.obj [("result", .obj [("primary_artist", .obj [("id", .num 7)])])]])])]) }
  else if req.url = "https://api.genius.com/artists/7" then
    .ok { status := 503, body := some .null }
  else
    .ok { status := 200, body := some (.obj []) }

/-- The table `get_artists` produces for `["Radiohead"]` on the fixture
transport. -/
def dfRadiohead : DataFrame :=
  ((Apputil.get_artists testClient ["Radiohead"]).run tFix).1.toOption.getD
    { columns := [], records := [] }

/-- A transport answering every request with HTTP 500 whose (failed) response
still carries a well-formed search body. -/
def t500hits : Transport := fun _ =>
  .ok { status := 500
        body := some (.obj [("response", .obj [("hits", .arr [.str "h"])])]) }

/-- Two successive calls of `get_artist` with the same term on the same
transport, as one computation returning both outputs. -/
def callTwice (c : Apputil.Genius) (term : String) : M (Json × Json) := do
  let first ← Apputil.get_artist c term
  let second ← Apputil.get_artist c term
  Pure.pure (first, second)

/-- The two outputs of resolving `Radiohead` twice on the fixture
transport. -/
def radioheadPair : Json × Json :=
  ((callTwice testClient "Radiohead").run tFix).1.toOption.getD (.null, .null)

/-! Shared lemmas about the effect monad and the loop bodies. -/

theorem M.res_bind {α β : Type} (x : M α) (f : α → M β) (t : Transport) :
    (M.run (x >>= f) t).1 =
      match (M.run x t).1 with
      | .error e => .error e
      | .ok a => (M.run (f a) t).1 := by
  rw [M.run_bind]
  rcases hx : M.run x t with ⟨r, l⟩
  cases r <;> simp

theorem M.log_bind {α β : Type} (x : M α) (f : α → M β) (t : Transport) :
    (M.run (x >>= f) t).2 =
      (M.run x t).2 ++
        (match (M.run x t).1 with
         | .error _ => []
         | .ok a => (M.run (f a) t).2) := by
  rw [M.run_bind]
  rcases hx : M.run x t with ⟨r, l⟩
  cases r <;> simp

theorem Apputil.rowFor_ok_shape (c : Apputil.Genius) (t : Transport) (term : String)
    (row : List (String × Json))
    (h : ((Apputil.rowFor c term).run t).1 = .ok row) :
    ∃ nm id fc, row = [("search_term", .str term), ("artist_name", nm),
                      ("artist_id", id), ("followers_count", fc)] := by
  unfold Apputil.rowFor at h
  rw [M.res_bind] at h
  rcases ha : (Apputil.get_artist c term).run t with ⟨r, l⟩
  rw [ha] at h
  cases r with
  | error e => simp at h
  | ok artist =>
    simp only [M.run_liftE] at h
    cases artist <;>
      simp [Apputil.artistRow, pyDictGet, Bind.bind, Except.bind] at h
    exact ⟨_, _, _, h.symm⟩

theorem List.foldl_insertCol_eq_map_fst (row : List (String × Json)) :
    ∀ cols : List String, recordCols cols row = (row.map Prod.fst).foldl insertCol cols := by
  induction row with
  | nil => intro cols; rfl
  | cons kv rest ih => intro cols; simp only [recordCols, List.foldl, List.map] at *; exact ih _

theorem Apputil.getArtistsRows_ok_spec (c : Apputil.Genius) (t : Transport) :
    ∀ (terms : List String) (rows : List (List (String × Json))),
      ((Apputil.getArtistsRows c terms).run t).1 = .ok rows →
      rows.map (fun r => r.lookup "search_term") = terms.map (fun s => some (Json.str s)) ∧
      ∀ row ∈ rows,
        row.map Prod.fst = ["search_term", "artist_name", "artist_id", "followers_count"] := by
  intro terms
  induction terms with
  | nil =>
    intro rows h
    simp only [Apputil.getArtistsRows, M.run_pure] at h
    cases h
    simp
  | cons term rest ih =>
    intro rows h
    simp only [Apputil.getArtistsRows] at h
    rw [M.res_bind] at h
    rcases hrow : (Apputil.rowFor c term).run t with ⟨r1, l1⟩
    rw [hrow] at h
    cases r1 with
    | error e => simp at h
    | ok row =>
      dsimp only at h
      rw [M.res_bind] at h
      rcases hrest : (Apputil.getArtistsRows c rest).run t with ⟨r2, l2⟩
      rw [hrest] at h
      cases r2 with
      | error e => simp at h
      | ok rows2 =>
        dsimp only at h
        simp only [M.run_pure] at h
        cases h
        obtain ⟨hmap, hkeys⟩ := ih rows2 (by rw [hrest])
        obtain ⟨nm, id, fc, hshape⟩ :=
          Apputil.rowFor_ok_shape c t term row (by rw [hrow])
        subst hshape
        refine ⟨by simp [hmap, List.lookup], ?_⟩
        intro r hr
        rcases List.mem_cons.1 hr with hr0 | hrm
        · subst hr0; rfl
        · exact hkeys r hrm

theorem Apputil.getArtistsRows_first_error (c : Apputil.Genius) (t : Transport) :
    ∀ (pre : List String) (term : String) (post : List String) (e : Err),
      (∀ s ∈ pre, ∃ r, ((Apputil.rowFor c s).run t).1 = .ok r) →
      ((Apputil.rowFor c term).run t).1 = .error e →
      ((Apputil.getArtistsRows c (pre ++ term :: post)).run t).1 = .error e := by
  intro pre
  induction pre with
  | nil =>
    intro term post e _ hterm
    simp only [List.nil_append, Apputil.getArtistsRows]
    rw [M.res_bind, hterm]
  | cons s pre ih =>
    intro term post e hpre hterm
    simp only [List.cons_append, Apputil.getArtistsRows]
    rw [M.res_bind]
    obtain ⟨r0, hr0⟩ := hpre s (List.mem_cons_self s pre)
    rw [hr0]
    dsimp only
    rw [M.res_bind]
    simp only [List.append_eq]
    rw [ih term post e (fun u hu => hpre u (List.mem_cons_of_mem s hu)) hterm]

theorem Apputil.mkGetRequest_log (c : Apputil.Genius) (path : String)
    (params : List (String × String)) (t : Transport) :
    (M.run (Apputil._get c path params) t).2 = [Apputil.mkGetRequest c path params] := by
  simp only [Apputil._get, M.run]
  rcases ht : t (Apputil.mkGetRequest c path params) with e | resp
  · cases e <;> rfl
  · rcases resp with ⟨st, bd⟩
    by_cases h4 : 400 ≤ st ∧ st < 600
    · simp [h4]
    · simp only [h4, if_false]
      cases bd <;> rfl

theorem GeniusApi.genius_log (term : String) (n : Int) (t : Transport) :
    (M.run (GeniusApi.genius term n) t).2 = [GeniusApi.geniusRequest term n] := by
  simp only [GeniusApi.genius, M.run]
  rcases ht : t (GeniusApi.geniusRequest term n) with e | resp
  · cases e <;> rfl
  · rcases resp with ⟨st, bd⟩
    cases bd <;> rfl

/-- All requests a computation can ever issue carry `timeout=10`. -/
def allTimeout10 {α : Type} (x : M α) : Prop :=
  ∀ (t : Transport) (req : Request), req ∈ (M.run x t).2 → req.timeout = some 10

theorem allTimeout10_pure {α : Type} (a : α) : allTimeout10 (Pure.pure (f := M) a) := by
  intro t req h
  simp [M.run_pure] at h

theorem allTimeout10_liftE {α : Type} (r : Except Err α) : allTimeout10 (liftE r) := by
  intro t req h
  simp [M.run_liftE] at h

theorem allTimeout10_bind {α β : Type} (x : M α) (f : α → M β)
    (hx : allTimeout10 x) (hf : ∀ a, allTimeout10 (f a)) : allTimeout10 (x >>= f) := by
  intro t req h
  rw [M.log_bind] at h
  rcases List.mem_append.1 h with h1 | h2
  · exact hx t req h1
  · rcases hr : (M.run x t).1 with e | a
    · rw [hr] at h2; simp at h2
    · rw [hr] at h2; exact hf a t req h2

theorem allTimeout10_get (c : Apputil.Genius) (path : String)
    (params : List (String × String)) : allTimeout10 (Apputil._get c path params) := by
  intro t req h
  rw [Apputil.mkGetRequest_log] at h
  rw [List.mem_singleton.1 h]
  rfl

theorem allTimeout10_search (c : Apputil.Genius) (term : String) (pp : Int) :
    allTimeout10 (Apputil._search c term pp) := by
  simp only [Apputil._search]
  exact allTimeout10_bind _ _ (allTimeout10_get c _ _) fun data =>
    allTimeout10_bind _ _ (allTimeout10_liftE _) fun resp => allTimeout10_liftE _

theorem allTimeout10_get_artist (c : Apputil.Genius) (term : String) :
    allTimeout10 (Apputil.get_artist c term) := by
  simp only [Apputil.get_artist]
  refine allTimeout10_bind _ _ (allTimeout10_search c term 1) fun hits => ?_
  cases hpt : pyTruthy hits <;> simp only [hpt, if_true, if_false, Bool.false_eq_true]
  · exact allTimeout10_pure _
  · refine allTimeout10_bind _ _ (allTimeout10_liftE _) fun artist_id => ?_
    cases artist_id <;>
      first
      | exact allTimeout10_pure _
      | exact allTimeout10_bind _ _ (allTimeout10_get c _ _) fun artist_json =>
          allTimeout10_bind _ _ (allTimeout10_liftE _) fun resp => allTimeout10_liftE _

theorem allTimeout10_rowFor (c : Apputil.Genius) (term : String) :
    allTimeout10 (Apputil.rowFor c term) := by
  simp only [Apputil.rowFor]
  exact allTimeout10_bind _ _ (allTimeout10_get_artist c term) fun artist =>
    allTimeout10_liftE _

theorem allTimeout10_getArtistsRows (c : Apputil.Genius) (terms : List String) :
    allTimeout10 (Apputil.getArtistsRows c terms) := by
  induction terms with
  | nil => exact allTimeout10_pure _
  | cons term rest ih =>
    simp only [Apputil.getArtistsRows]
    exact allTimeout10_bind _ _ (allTimeout10_rowFor c term) fun row =>
      allTimeout10_bind _ _ ih fun rows => allTimeout10_pure _

theorem allTimeout10_get_artists (c : Apputil.Genius) (terms : List String) :
    allTimeout10 (Apputil.get_artists c terms) := by
  simp only [Apputil.get_artists]
  exact allTimeout10_bind _ _ (allTimeout10_getArtistsRows c terms) fun rows =>
    allTimeout10_pure _

theorem GeniusApi.genius_to_df_zero_hits (t : Transport) (term : String) (n : Int)
    (hz : ((GeniusApi.genius term n).run t).1 = .ok (.arr [])) :
    ((GeniusApi.genius_to_df term n).run t).1 = .error (.keyError "stats") := by
  simp only [GeniusApi.genius_to_df]
  rw [M.res_bind, hz]
  rfl

theorem GeniusApi.geniusToDfList_error (t : Transport) (n : Int) :
    ∀ (terms : List String) (term : String), term ∈ terms →
      ((GeniusApi.genius_to_df term n).run t).1 = .error (.keyError "stats") →
      ∃ e, ((GeniusApi.geniusToDfList n terms).run t).1 = .error e := by
  intro terms
  induction terms with
  | nil => intro term hmem; exact absurd hmem (List.not_mem_nil term)
  | cons s rest ih =>
    intro term hmem hdf
    simp only [GeniusApi.geniusToDfList]
    rw [M.res_bind]
    rcases hs : (M.run (GeniusApi.genius_to_df s n) t).1 with e | df
    · exact ⟨e, rfl⟩
    · have hrest : term ∈ rest := by
        rcases List.mem_cons.1 hmem with h1 | h2
        · subst h1; rw [hdf] at hs; simp at hs
        · exact h2
      obtain ⟨e, he⟩ := ih term hrest hdf
      refine ⟨e, ?_⟩
      dsimp only
      rw [M.res_bind, he]

theorem recordCols_of_row_keys (row : List (String × Json)) (cols : List String)
    (h : row.map Prod.fst = ["search_term", "artist_name", "artist_id", "followers_count"])
    (hc : cols = [] ∨ cols = ["search_term", "artist_name", "artist_id", "followers_count"]) :
    recordCols cols row = ["search_term", "artist_name", "artist_id", "followers_count"] := by
  rw [List.foldl_insertCol_eq_map_fst, h]
  rcases hc with hc | hc <;> subst hc <;> rfl

theorem foldl_recordCols_fixed :
    ∀ (rows : List (List (String × Json))),
      (∀ row ∈ rows,
        row.map Prod.fst = ["search_term", "artist_name", "artist_id", "followers_count"]) →
      List.foldl recordCols ["search_term", "artist_name", "artist_id", "followers_count"] rows =
        ["search_term", "artist_name", "artist_id", "followers_count"] := by
  intro rows
  induction rows with
  | nil => intro _; rfl
  | cons r rest ih =>
    intro hs
    simp only [List.foldl]
    rw [recordCols_of_row_keys r _ (hs r (List.mem_cons_self r rest)) (Or.inr rfl)]
    exact ih fun row hm => hs row (List.mem_cons_of_mem r hm)

/-! Claim theorems. -/

/-- C1, counterexample: on a transport whose responses make the single term
fail with HTTP 500, `get_artists` does not return one row per input term — it
returns no table at all, the fault escapes.  This refutes the claim for the
reading in which a term can "fail" with a transport fault. -/
theorem get_artists_aborts_cex :
    ((Apputil.get_artists testClient ["a"]).run t500).1 = .error (.httpError 500) := rfl

/-- C1, amended: whenever `get_artists` does return a table (no term's
resolution raised), the table has exactly one row per input term, and the
rows carry the input terms in input order.  Terms that merely resolve to
nothing still get their (null-valued) row. -/
theorem get_artists_one_row_per_term (c : Apputil.Genius) (t : Transport)
    (terms : List String) (df : DataFrame)
    (h : ((Apputil.get_artists c terms).run t).1 = .ok df) :
    df.records.length = terms.length ∧
    df.records.map (fun r => r.lookup "search_term") =
      terms.map (fun s => some (Json.str s)) := by
  simp only [Apputil.get_artists] at h
  rw [M.res_bind] at h
  rcases hrows : (Apputil.getArtistsRows c terms).run t with ⟨r, l⟩
  rw [hrows] at h
  cases r with
  | error e => simp at h
  | ok rows =>
    dsimp only at h
    simp only [M.run_pure, Except.ok.injEq] at h
    obtain ⟨hmap, _⟩ := Apputil.getArtistsRows_ok_spec c t terms rows (by rw [hrows])
    subst h
    refine ⟨?_, hmap⟩
    have hlen := congrArg List.length hmap
    simpa using hlen

/-- C1, witness for the amended theorem at the Radiohead fixture. -/
theorem get_artists_one_row_per_term_witness :
    dfRadiohead.records.length = (["Radiohead"] : List String).length ∧
    dfRadiohead.records.map (fun r => r.lookup "search_term") =
      (["Radiohead"] : List String).map (fun s => some (Json.str s)) :=
  get_artists_one_row_per_term testClient tFix ["Radiohead"] dfRadiohead rfl

/-- C2, counterexample: on `tDetailFault` the term `"b"` searches successfully
(one hit, primary-artist id 7) but its detail call fails with HTTP 503; the
batch `get_artists ["a", "b"]` does not complete with a full-length null-row
result — the fault propagates out of the batch call and no table is
produced. -/
theorem get_artists_detail_fault_cex :
    ((Apputil._search testClient "b" 1).run tDetailFault).1 =
      .ok (.arr [.obj [("result", .obj [("primary_artist", .obj [("id", .num 7)])])]]) ∧
    ((Apputil.get_artist testClient "b").run tDetailFault).1 = .error (.httpError 503) ∧
    ((Apputil.get_artists testClient ["a", "b"]).run tDetailFault).1 =
      .error (.httpError 503) :=
  ⟨rfl, rfl, rfl⟩

/-- C2, amended: if one term's resolution (its row construction) raises a
transport fault while every earlier term's row succeeds, the whole batch call
raises that same fault and returns no rows at all: `get_artists` performs no
per-term catching. -/
theorem get_artists_fault_propagates (c : Apputil.Genius) (t : Transport)
    (pre : List String) (term : String) (post : List String) (e : Err)
    (hpre : ∀ s ∈ pre, ∃ r, ((Apputil.rowFor c s).run t).1 = .ok r)
    (hterm : ((Apputil.rowFor c term).run t).1 = .error e) :
    ((Apputil.get_artists c (pre ++ term :: post)).run t).1 = .error e := by
  simp only [Apputil.get_artists]
  rw [M.res_bind, Apputil.getArtistsRows_first_error c t pre term post e hpre hterm]

/-- C2, witness for the amended theorem on the detail-fault fixture. -/
theorem get_artists_fault_propagates_witness :
    ((Apputil.get_artists testClient (["a"] ++ "b" :: [])).run tDetailFault).1 =
      .error (.httpError 503) :=
  get_artists_fault_propagates testClient tDetailFault ["a"] "b" [] (.httpError 503)
    (by
      intro s hs
      rw [List.mem_singleton.1 hs]
      exact ⟨_, rfl⟩)
    rfl

/-- C3, counterexample: constructing the client with no explicit token and no
environment credential does not fail — it silently falls back to the
hard-coded `STATIC_TOKEN` and succeeds. -/
theorem genius_init_no_credential_cex :
    Apputil.Genius.init none none "https://api.genius.com" = .ok testClient := rfl

/-- C3, amended: with a falsy explicit token and a falsy environment value,
construction always succeeds and the stored token is the hard-coded
`STATIC_TOKEN`; the `ValueError` branch is unreachable because the static
fallback is non-empty.  (Construction involves no transport at all: it is a
pure value, so no network call can occur in this path.) -/
theorem genius_init_static_fallback (a e : Option String) (u : String)
    (ha : a = none ∨ a = some "") (he : e = none ∨ e = some "") :
    ∃ g, Apputil.Genius.init a e u = .ok g ∧ g.access_token = Apputil.STATIC_TOKEN := by
  rcases ha with rfl | rfl <;> rcases he with rfl | rfl <;> exact ⟨_, rfl, rfl⟩

/-- C3, witness for the amended theorem at the default constructor call. -/
theorem genius_init_static_fallback_witness :
    ∃ g, Apputil.Genius.init none none "https://api.genius.com" = .ok g ∧
      g.access_token = Apputil.STATIC_TOKEN :=
  genius_init_static_fallback none none "https://api.genius.com" (Or.inl rfl) (Or.inl rfl)

/-- C4 (confirmed): when the search step of a term yields zero hits, or yields
hits whose first hit has no primary-artist id (`None`/absent), `get_artist`
returns the empty dict without raising, and the batch row built for the term
has null `artist_name`, `artist_id` and `followers_count`. -/
theorem get_artist_unresolved_is_null_row (c : Apputil.Genius) (t : Transport) (term : String)
    (h : ((Apputil._search c term 1).run t).1 = .ok (.arr []) ∨
         ∃ hits, ((Apputil._search c term 1).run t).1 = .ok hits ∧
           pyTruthy hits = true ∧ Apputil.primaryArtistId hits = .ok .null) :
    ((Apputil.get_artist c term).run t).1 = .ok (.obj []) ∧
    ((Apputil.rowFor c term).run t).1 =
      .ok [("search_term", .str term), ("artist_name", .null),
           ("artist_id", .null), ("followers_count", .null)] := by
  have hga : ((Apputil.get_artist c term).run t).1 = .ok (.obj []) := by
    simp only [Apputil.get_artist]
    rw [M.res_bind]
    rcases h with hz | ⟨hits, hh, htr, hid⟩
    · rw [hz]
      rfl
    · rw [hh]
      dsimp only
      simp only [htr]
      rw [if_pos trivial, M.res_bind]
      simp only [M.run_liftE, hid]
      rfl
  refine ⟨hga, ?_⟩
  simp only [Apputil.rowFor]
  rw [M.res_bind, hga]
  rfl

/-- C4, witness: a transport whose search yields the fallback empty hits
list gives the empty-dict outcome and the null-valued row. -/
theorem get_artist_unresolved_is_null_row_witness :
    ((Apputil.get_artist testClient "x").run tEmptySearch).1 = .ok (.obj []) ∧
    ((Apputil.rowFor testClient "x").run tEmptySearch).1 =
      .ok [("search_term", .str "x"), ("artist_name", .null),
           ("artist_id", .null), ("followers_count", .null)] :=
  get_artist_unresolved_is_null_row testClient tEmptySearch "x" (Or.inl rfl)

/-- C5, counterexample: the `genius` function of `genius_api.py` issues its
GET with no `timeout=` argument, so not every network call of the library
carries a timeout. -/
theorem genius_call_lacks_timeout_cex :
    ((GeniusApi.genius "Radiohead" 15).run tEmptySearch).2 =
      [GeniusApi.geniusRequest "Radiohead" 15] ∧
    (GeniusApi.geniusRequest "Radiohead" 15).timeout = none :=
  ⟨rfl, rfl⟩

/-- C5, amended: every network call issued by the `Genius` class (all of
which go through `_get`) carries `timeout=10`, and its expiry is raised as a
transport fault; the free function `genius` in `genius_api.py` issues its GET
with no timeout at all. -/
theorem timeout_per_library_call :
    (∀ (c : Apputil.Genius) (terms : List String) (t : Transport) (req : Request),
        req ∈ ((Apputil.get_artists c terms).run t).2 → req.timeout = some 10) ∧
    (∀ (term : String) (n : Int) (t : Transport) (req : Request),
        req ∈ ((GeniusApi.genius term n).run t).2 → req.timeout = none) := by
  constructor
  · intro c terms t req h
    exact allTimeout10_get_artists c terms t req h
  · intro term n t req h
    rw [GeniusApi.genius_log] at h
    rw [List.mem_singleton.1 h]
    rfl

/-- C5, witness for the amended theorem on concrete requests of each side. -/
theorem timeout_per_library_call_witness :
    (Apputil.mkGetRequest testClient "/search" [("q", "x"), ("per_page", "1")]).timeout =
      some 10 ∧
    (GeniusApi.geniusRequest "Radiohead" 15).timeout = none :=
  ⟨timeout_per_library_call.1 testClient ["x"] tEmptySearch _ (List.Mem.head _),
   timeout_per_library_call.2 "Radiohead" 15 tEmptySearch
     (GeniusApi.geniusRequest "Radiohead" 15) (List.Mem.head _)⟩

/-- C6, counterexample: on a transport answering HTTP 500, the `genius`
function returns the parsed body of the failed response instead of raising a
transport fault — it never checks the status. -/
theorem genius_no_status_check_cex :
    ((GeniusApi.genius "x" 15).run t500hits).1 = .ok (.arr [.str "h"]) := rfl

/-- C6, amended: `Genius._get` raises an `HTTPError` transport fault for any
4xx/5xx response (requests' `raise_for_status`); the `genius` function of
`genius_api.py` performs no status check at all and returns the parsed body
whatever the status is. -/
theorem get_raises_on_4xx_5xx :
    (∀ (c : Apputil.Genius) (path : String) (params : List (String × String))
        (t : Transport) (resp : HttpResponse),
        t (Apputil.mkGetRequest c path params) = .ok resp →
        400 ≤ resp.status → resp.status < 600 →
        ((Apputil._get c path params).run t).1 = .error (.httpError resp.status)) ∧
    (∀ (term : String) (n : Int) (t : Transport) (resp : HttpResponse) (j : Json),
        t (GeniusApi.geniusRequest term n) = .ok resp → resp.body = some j →
        ((GeniusApi.genius term n).run t).1 =
          (pySubscript j "response").bind (fun r => pySubscript r "hits")) := by
  constructor
  · intro c path params t resp h1 h4 h6
    simp only [Apputil._get, M.run]
    rw [h1]
    dsimp only
    rw [if_pos ⟨h4, h6⟩]
  · intro term n t resp j h1 hb
    simp only [GeniusApi.genius, M.run]
    rw [h1]
    dsimp only
    rw [hb]

/-- C6, witness for the amended theorem at concrete 500-status responses. -/
theorem get_raises_on_4xx_5xx_witness :
    ((Apputil._get testClient "/search" []).run t500).1 = .error (.httpError 500) ∧
    ((GeniusApi.genius "x" 15).run t500hits).1 =
      (pySubscript (.obj [("response", .obj [("hits", .arr [.str "h"])])]) "response").bind
        (fun r => pySubscript r "hits") :=
  ⟨get_raises_on_4xx_5xx.1 testClient "/search" [] t500
      { status := 500, body := some (.obj []) } rfl (by decide) (by decide),
   get_raises_on_4xx_5xx.2 "x" 15 t500hits
      { status := 500, body := some (.obj [("response", .obj [("hits", .arr [.str "h"])])]) }
      _ rfl rfl⟩

/-- C7 (confirmed): with a fixed transport, resolving the same term twice in
a row yields identical outputs — the client keeps no mutable state between
calls, so the resolver is deterministic relative to the transport. -/
theorem get_artist_idempotent (c : Apputil.Genius) (t : Transport) (term : String)
    (p : Json × Json) (h : ((callTwice c term).run t).1 = .ok p) : p.1 = p.2 := by
  simp only [callTwice] at h
  rw [M.res_bind] at h
  rcases h1 : (Apputil.get_artist c term).run t with ⟨r, l⟩
  rw [h1] at h
  cases r with
  | error e => simp at h
  | ok a =>
    dsimp only at h
    rw [M.res_bind, h1] at h
    dsimp only at h
    simp only [M.run_pure, Except.ok.injEq] at h
    subst h
    rfl

/-- C7, witness at the Radiohead fixture. -/
theorem get_artist_idempotent_witness : radioheadPair.1 = radioheadPair.2 :=
  get_artist_idempotent testClient tFix "Radiohead" radioheadPair rfl

/-- C8 (confirmed): any table produced by `get_artists` for a non-empty input
has exactly the columns `search_term, artist_name, artist_id,
followers_count`, in that order. -/
theorem get_artists_fixed_columns (c : Apputil.Genius) (t : Transport)
    (terms : List String) (df : DataFrame) (hne : terms ≠ [])
    (h : ((Apputil.get_artists c terms).run t).1 = .ok df) :
    df.columns = ["search_term", "artist_name", "artist_id", "followers_count"] := by
  simp only [Apputil.get_artists] at h
  rw [M.res_bind] at h
  rcases hrows : (Apputil.getArtistsRows c terms).run t with ⟨r, l⟩
  rw [hrows] at h
  cases r with
  | error e => simp at h
  | ok rows =>
    dsimp only at h
    simp only [M.run_pure, Except.ok.injEq] at h
    obtain ⟨hmap, hkeys⟩ := Apputil.getArtistsRows_ok_spec c t terms rows (by rw [hrows])
    subst h
    cases rows with
    | nil =>
      exfalso
      cases terms with
      | nil => exact hne rfl
      | cons a as => simp at hmap
    | cons r0 rest =>
      simp only [DataFrame.fromRecords, List.foldl]
      rw [recordCols_of_row_keys r0 [] (hkeys r0 (List.mem_cons_self r0 rest)) (Or.inl rfl)]
      exact foldl_recordCols_fixed rest fun row hm => hkeys row (List.mem_cons_of_mem r0 hm)

/-- C8, witness at the Radiohead fixture. -/
theorem get_artists_fixed_columns_witness :
    dfRadiohead.columns = ["search_term", "artist_name", "artist_id", "followers_count"] :=
  get_artists_fixed_columns testClient tFix ["Radiohead"] dfRadiohead
    (List.cons_ne_nil _ _) rfl

/-- C9 (confirmed): on the empty input list `get_artists` issues no request
and returns, without error, the empty table: zero rows and zero columns (so
the four-column shape indeed only holds for non-empty inputs). -/
theorem get_artists_empty_input (c : Apputil.Genius) (t : Transport) :
    (Apputil.get_artists c []).run t = (.ok { columns := [], records := [] }, []) := rfl

/-- C10 (confirmed): a term whose search yields zero hits makes
`genius_to_df` raise `KeyError` on the `stats` column of the empty frame, and
that exception aborts the whole `genius_to_dfs` batch containing the term. -/
theorem zero_hits_aborts_batch (t : Transport) (term : String) (terms : List String)
    (n : Int) (hmem : term ∈ terms)
    (hz : ((GeniusApi.genius term n).run t).1 = .ok (.arr [])) :
    ((GeniusApi.genius_to_df term n).run t).1 = .error (.keyError "stats") ∧
    ∃ e, ((GeniusApi.genius_to_dfs terms n).run t).1 = .error e := by
  have hdf := GeniusApi.genius_to_df_zero_hits t term n hz
  refine ⟨hdf, ?_⟩
  obtain ⟨e, he⟩ := GeniusApi.geniusToDfList_error t n terms term hmem hdf
  refine ⟨e, ?_⟩
  simp only [GeniusApi.genius_to_dfs]
  rw [M.res_bind, he]

/-- C10, witness on a transport that answers every search with zero hits. -/
theorem zero_hits_aborts_batch_witness :
    ((GeniusApi.genius_to_df "e" 10).run tEmptyHits).1 = .error (.keyError "stats") ∧
    ∃ e, ((GeniusApi.genius_to_dfs ["e"] 10).run tEmptyHits).1 = .error e :=
  zero_hits_aborts_batch tEmptyHits "e" ["e"] 10 (List.mem_singleton.mpr rfl) rfl
